import Mathlib

/-!
Verification model of the L6470 telescope-mount driver.

A shallow embedding of the command/register protocol layer
(`docs/L6470_driver.py`, the complete draft of the duplicated driver file,
together with the byte-serialisation of `stmspi.py`) and of the per-axis
motion supervisor `MotorTask` (`telescope_driver/main.py`).

Conventions of the embedding:
* Python integers are `ℤ` (or `ℕ` where the source value is manifestly
  non-negative, e.g. a status word assembled from received bytes);
  Python `x >> k` on integers is floor division by `2 ^ k` (`Int.fdiv`),
  and `x & 0xff` is `Int.emod x 256`.
* Python floats are modelled by exact rationals `ℚ`; `float` rounding is
  irrelevant to every property considered here and is noted where it
  could matter.  `int(x)` is truncation toward zero (`pyInt`).
* Python strings are lists of characters (`List Char`).
* The SPI transport is an external collaborator: a command execution is
  modelled by the sequence of exchanges it performs (`SpiCall` at the
  protocol layer, `DCmd` at the supervisor layer), and the values the
  chip answers with are supplied by oracles (`σ` for `GetStatus` words,
  `params` for `GetParam` reads, `pyFloat` for the builtin `float`).
-/

/-- One SPI exchange as recorded on the wire: the bytes shifted out and the
number of response bytes read back.  This is one call of
`stmspi.SPIDevice.send_recieve(send, send_len, recieve_len)`. -/
structure SpiCall where
  sent : List ℤ
  recvLen : ℕ
deriving DecidableEq

/-- The byte list `stmspi.SPIDevice.send_recieve` shifts out:
`data_bytes = [(send>>8*(send_len-byte-1))&0xff for byte in range(0,send_len)]`,
i.e. most-significant byte first. -/
def sendBytes (send : ℤ) (send_len : ℕ) : List ℤ :=
  (List.range send_len).map fun b => (Int.fdiv send (2 ^ (8 * (send_len - b - 1)))).emod 256

/-- The register table `L6470.REGISTER_DICT` of `docs/L6470_driver.py`, in
source order:
register name, address, bit width. -/
def REGISTER_DICT : List (String × ℕ × ℕ) :=
  [("ABS_POS", 0x01, 22),
   ("EL_POS", 0x02, 9),
   ("MARK", 0x03, 22),
   ("SPEED", 0x04, 20),
   ("ACC", 0x05, 12),
   ("DEC", 0x06, 12),
   ("MAX_SPEED", 0x07, 10),
   ("MIN_SPEED", 0x08, 13),
   ("FS_SPD", 0x15, 10),
   ("KVAL_HOLD", 0x09, 8),
   ("KVAL_RUN", 0x0A, 8),
   ("KVAL_ACC", 0x0B, 8),
   ("KVAL_DEC", 0x0C, 8),
   ("INT_SPEED", 0x0D, 14),
   ("ST_SLP", 0x0E, 8),
   ("FN_SLP_ACC", 0x0F, 8),
   ("FN_SLP_DEC", 0x10, 8),
   ("K_THERM", 0x11, 4),
   ("ADC_OUT", 0x12, 5),
   ("OCD_TH", 0x13, 4),
   ("STALL_TH", 0x14, 7),
   ("STEP_MODE", 0x16, 8),
   ("ALARM_EN", 0x17, 8),
   ("CONFIG", 0x18, 16),
   ("STATUS", 0x19, 16),
   ("RESERVED A", 0x1A, 0),
   ("RESERVED B", 0x1B, 0)]

/-- Python dictionary lookup `L6470.REGISTER_DICT[register]`: `none` models a
`KeyError` for an absent name. -/
def regLookup (register : String) : Option (ℕ × ℕ) :=
  (REGISTER_DICT.find? (fun e => e.1 == register)).map (·.2)

/-- Payload byte count `send_len = math_ceil(regdata[1]/8)` of a register,
the ceiling of its bit width divided by 8 (Python true division, exact
over `ℚ` for these magnitudes). -/
def byteLen (bits : ℕ) : ℕ := ⌈(bits : ℚ) / 8⌉₊

/-- Command `L6470.SetParam(register, value)` of `docs/L6470_driver.py`: look the
register up, send the opcode byte `0b00000000 + address`, then the value in
`byteLen` bytes. -/
def L6470.SetParam (register : String) (value : ℤ) : Option (List SpiCall) :=
  (regLookup register).map fun rd =>
    [⟨sendBytes ((0b00000000 + rd.1 : ℕ) : ℤ) 1, 0⟩,
     ⟨sendBytes value (byteLen rd.2), 0⟩]

/-- Command `L6470.GetParam(register)` of `docs/L6470_driver.py`: one exchange sending
the opcode `0b00100000 + address` in `send_len` bytes and reading
`recv_len = send_len = byteLen` response bytes. -/
def L6470.GetParam (register : String) : Option (List SpiCall) :=
  (regLookup register).map fun rd =>
    [⟨sendBytes ((0b00100000 + rd.1 : ℕ) : ℤ) (byteLen rd.2), byteLen rd.2⟩]

/-- Command `L6470.Run(speed, direction)` of `docs/L6470_driver.py`: return code and
the SPI exchanges performed.  Invalid direction or negative speed returns
`-1` before anything is sent; otherwise the opcode byte
`0b01010000 + direction` goes out, then the speed in 3 bytes, and the return
code is `0`. -/
def L6470.Run (speed direction : ℤ) : ℤ × List SpiCall :=
  if direction ≠ 1 ∧ direction ≠ 0 then (-1, [])
  else if speed < 0 then (-1, [])
  else (0, [⟨sendBytes (0b01010000 + direction) 1, 0⟩, ⟨sendBytes speed 3, 0⟩])

/-- Command `L6470.GetStatus()` of `docs/L6470_driver.py`: one exchange sending the
fixed opcode and reading the 2 status bytes. -/
def L6470.GetStatus : List SpiCall := [⟨sendBytes 0b11010000 1, 2⟩]

/-- All bytes a trace of exchanges puts on the wire, in order. -/
def wireBytes (tr : List SpiCall) : List ℤ := (tr.map SpiCall.sent).flatten

/-! The motion supervisor `MotorTask` (`telescope_driver/main.py`).

The supervisor drives an `L6470` instance; one `run_task` step performs a
bounded sequence of driver calls.  We record those calls abstractly as
`DCmd`s (the byte encoding of each is the protocol layer above) and model
the chip's answers to the `GetStatus` / `GetParam` reads of the step by
oracles `σ : ℕ → ℕ` (the value of the `i`-th `GetStatus` of the step) and
`params : String → ℕ` (the value a `GetParam` of a register returns during
the step). -/

/-- A driver call made by the supervisor, as `main.py` issues it. -/
inductive DCmd where
  | getStatus
  | getParam (register : String)
  | setParam (register : String) (value : ℤ)
  | softStop
  | softHiZ
  | hardHiZ
  | goTo (position : ℤ)
  | goMark
  | goHome
  | runCmd (speed : ℤ) (direction : ℤ)
  | resetDevice
deriving DecidableEq

/-- A notification the supervisor prints; each constructor stands for one
`print` site of `main.py`. -/
inductive Report where
  | deviceUnreachable
  | initFault (stat : ℕ)
  | initOk (stat : ℕ)
  | driverError (stat : ℕ)
  | invalidAngle
  | paramWriteFailed (register : String) (stat : ℕ)
  | unknownState
deriving DecidableEq

/-- Constant `_ERR_FLAG_MASK = const(0b0111111000000000)`: bit placement of
error flags. -/
def ERR_FLAG_MASK : ℕ := 0b0111111000000000

/-- Constant `_ERR_CMD_MASK = const(0b0000000110000000)`: bit placement of
cmd error flags. -/
def ERR_CMD_MASK : ℕ := 0b0000000110000000

/-- State alias `_STATE_INIT = const(0)`. -/
def STATE_INIT : ℤ := 0
/-- State alias `_STATE_IDLE = const(1)`. -/
def STATE_IDLE : ℤ := 1
/-- State alias `_STATE_BUSY = const(2)`. -/
def STATE_BUSY : ℤ := 2
/-- State alias `_STATE_ERR = const(3)`. -/
def STATE_ERR : ℤ := 3

/-- The error-mask test used throughout `main.py`:
`(stat & _ERR_CMD_MASK) or ((stat & _ERR_FLAG_MASK) != _ERR_FLAG_MASK)`
(a nonzero int is truthy).  `true` means the test fails, i.e. a command
error bit is set or some fault-indicator bit left its nominal value. -/
def errMaskFail (stat : ℕ) : Bool :=
  (stat &&& ERR_CMD_MASK != 0) || (stat &&& ERR_FLAG_MASK != ERR_FLAG_MASK)

/-- The mutable attributes of a `MotorTask` instance together with its
construction parameters.

The slew/turn arithmetic of `run_task` names `_N_F`, `_N_D` and `_STPD` as
bare (module-level) identifiers; no such globals exist in `main.py` — the
constructor stores `teeth_follower` in `self._N_F`, `teeth_driver` in
`self._N_W` and `step_degrees` in `self._STPD` — so we read them as the
instance parameters they evidently stand for (follower teeth, driver
teeth, steps-per-degree).

`state` (no underscore) models the attribute written by
`self.state = _STATE_BUSY` in the `mark`/`home` go-to branches; it is a
*different* attribute from `self._state` and is absent (`none`) until one
of those branches first writes it. -/
structure MotorState where
  _state : ℤ
  _err : ℤ
  state : Option ℤ
  _STPD : ℚ
  _N_W : ℚ
  _N_F : ℚ
deriving DecidableEq

/-- Method `MotorTask.shut_off`: `SoftHiZ`, `_state = _STATE_IDLE`, `_err = 0`. -/
def MotorTask.shut_off (s : MotorState) : MotorState × List DCmd :=
  ({s with _state := STATE_IDLE, _err := 0}, [DCmd.softHiZ])

/-- Method `MotorTask.set_param(param_str, value)`: the driver calls made and the
notifications printed.  `σ i` is the word the `i`-th `GetStatus` of this
call returns: the first (`σ 0`) is read to clear previous errors and
discarded, the post-write word is `σ 1`; on a failed error-mask test the
sequence runs once more (`σ 2` discarded, post-write word `σ 3`), and a
second failure only prints the error. -/
def MotorTask.set_param (σ : ℕ → ℕ) (param_str : String) (value : ℤ) :
    List DCmd × List Report :=
  let seq : List DCmd :=
    [DCmd.getStatus, DCmd.setParam param_str value, DCmd.getStatus]
  if errMaskFail (σ 1) then
    if errMaskFail (σ 3) then
      (seq ++ seq, [Report.paramWriteFailed param_str (σ 3)])
    else
      (seq ++ seq, [])
  else
    (seq, [])

/-- Python `int(x)` for a real `x`: truncation toward zero. -/
def pyInt (q : ℚ) : ℤ := if q < 0 then ⌈q⌉ else ⌊q⌋

/-- Python `s.startswith(pre)` on strings-as-char-lists. -/
def pyStartsWith (s pre : List Char) : Bool := pre.isPrefixOf s

/-- Python `pat in s` (substring containment) on strings-as-char-lists. -/
def pyHasSubstr (pat : List Char) : List Char → Bool
  | [] => pat.isEmpty
  | c :: t => pat.isPrefixOf (c :: t) || pyHasSubstr pat t

/-- Fuelled worker for `pyReplace`; the fuel is an upper bound on the length
of the list and never runs out when called through `pyReplace`. -/
def pyReplaceAux (pat : List Char) : ℕ → List Char → List Char
  | 0, s => s
  | _ + 1, [] => []
  | n + 1, c :: t =>
    if pat ≠ [] ∧ pat.isPrefixOf (c :: t) then
      pyReplaceAux pat n (t.drop (pat.length - 1))
    else
      c :: pyReplaceAux pat n t

/-- Python `s.replace(pat, '')`: delete every (left-to-right,
non-overlapping) occurrence of the non-empty pattern `pat` from `s`. -/
def pyReplace (pat s : List Char) : List Char := pyReplaceAux pat s.length s

/-- The result of one `MotorTask.run_task` step: the new instance state, the
driver calls made, the notifications printed, and the Python return value
(`none` for the bare `return` of the unreachable-device branch, otherwise
`some` of the returned `self._err`). -/
structure StepResult where
  st : MotorState
  tr : List DCmd
  logs : List Report
  ret : Option ℤ
deriving DecidableEq

/-- One step of `MotorTask.run_task(cmd_code)` (`telescope_driver/main.py`).

`σ i` is the word returned by the `i`-th `GetStatus` the step performs,
`params r` the value returned by a `GetParam(r)` during the step and
`pyFloat` the behaviour of Python's builtin `float` on the angle text
(`none` models a raised `ValueError`).  `pyb.udelay` settling delays are
external timing and not recorded. -/
def MotorTask.run_task (s : MotorState) (σ : ℕ → ℕ) (params : String → ℕ)
    (pyFloat : List Char → Option ℚ) (cmd_code : List Char) : StepResult :=
  if s._state = STATE_INIT then
    -- --state: initializing--
    let stat := σ 0
    if stat = 0 ∨ stat = 65535 then
      ⟨s, [DCmd.getStatus], [Report.deviceUnreachable], none⟩
    else if errMaskFail stat then
      ⟨{s with _state := STATE_INIT}, [DCmd.getStatus],
        [Report.initFault stat], some s._err⟩
    else
      ⟨{s with _state := STATE_IDLE}, [DCmd.getStatus, DCmd.softHiZ],
        [Report.initOk stat], some s._err⟩
  else if s._state = STATE_IDLE then
    -- --state: waiting for command--
    let stat := σ 0
    if errMaskFail stat then
      ⟨{s with _state := STATE_ERR, _err := (stat : ℤ)}, [DCmd.getStatus],
        [Report.driverError stat], some (stat : ℤ)⟩
    else if pyStartsWith cmd_code "slew".data then
      match pyFloat (pyReplace "slew".data cmd_code) with
      | none => ⟨s, [DCmd.getStatus], [Report.invalidAngle], some s._err⟩
      | some angle =>
        let step_reg := params "STEP_MODE"
        let step_mode : ℕ := 2 ^ (step_reg &&& 7)
        let step_value : ℤ :=
          pyInt (angle * step_mode * (1 * s._N_F / s._N_W) / (s._STPD / 10))
        ⟨{s with _state := STATE_BUSY},
          [DCmd.getStatus, DCmd.getParam "STEP_MODE", DCmd.softStop,
           DCmd.goTo step_value], [], some s._err⟩
    else if pyStartsWith cmd_code "turn".data then
      match pyFloat (pyReplace "turn".data cmd_code) with
      | none => ⟨s, [DCmd.getStatus], [Report.invalidAngle], some s._err⟩
      | some angle =>
        let step_reg := params "STEP_MODE"
        let step_mode : ℕ := 2 ^ (step_reg &&& 7)
        let del_steps : ℚ :=
          angle * step_mode * (1 * s._N_F / s._N_W) / (s._STPD / 10)
        let cur_steps := params "ABS_POS"
        ⟨{s with _state := STATE_BUSY},
          [DCmd.getStatus, DCmd.getParam "STEP_MODE", DCmd.getParam "ABS_POS",
           DCmd.softStop, DCmd.goTo (pyInt ((cur_steps : ℚ) + del_steps))],
          [], some s._err⟩
    else if cmd_code = "track".data then
      ⟨{s with _state := STATE_BUSY},
        [DCmd.getStatus, DCmd.softStop, DCmd.runCmd 1000 1], [], some s._err⟩
    else if pyStartsWith cmd_code "mark".data then
      if pyHasSubstr "set".data cmd_code then
        let sp := MotorTask.set_param (fun i => σ (i + 1)) "MARK"
          ((params "ABS_POS" : ℕ) : ℤ)
        ⟨s, [DCmd.getStatus, DCmd.getParam "ABS_POS"] ++ sp.1, sp.2,
          some s._err⟩
      else
        ⟨{s with state := some STATE_BUSY}, [DCmd.getStatus, DCmd.goMark],
          [], some s._err⟩
    else if pyStartsWith cmd_code "home".data then
      if pyHasSubstr "set".data cmd_code then
        let sp := MotorTask.set_param (fun i => σ (i + 1)) "ABS_POS" 0
        ⟨s, [DCmd.getStatus, DCmd.softStop] ++ sp.1, sp.2, some s._err⟩
      else
        ⟨{s with state := some STATE_BUSY}, [DCmd.getStatus, DCmd.goHome],
          [], some s._err⟩
    else if cmd_code = "stop".data then
      ⟨s, [DCmd.getStatus, DCmd.softStop], [], some s._err⟩
    else if cmd_code = "off".data then
      ⟨s, [DCmd.getStatus, DCmd.softHiZ], [], some s._err⟩
    else
      ⟨s, [DCmd.getStatus], [], some s._err⟩
  else if s._state = STATE_ERR then
    -- --state: error has ocurred--
    let stat := σ 0
    if ¬(errMaskFail stat) then
      ⟨{s with _state := STATE_IDLE, _err := 0}, [DCmd.getStatus], [],
        some 0⟩
    else
      ⟨s, [DCmd.getStatus], [], some s._err⟩
  else if s._state = STATE_BUSY then
    -- --state: executing command--
    let stat := σ 0
    if stat &&& (1 <<< 1) ≠ 0 then
      ⟨{s with _state := STATE_IDLE, _err := 0}, [DCmd.getStatus], [],
        some 0⟩
    else
      ⟨{s with _err := 2}, [DCmd.getStatus], [], some 2⟩
  else
    -- --state: unknown--
    ⟨{s with _state := STATE_IDLE}, [DCmd.softHiZ], [Report.unknownState],
      some s._err⟩

/-- Does a driver call transmit a `SetParam` command? -/
def isSetParamCmd : DCmd → Bool
  | DCmd.setParam _ _ => true
  | _ => false

/-- Modelled from the spec: the GoTo target the specification prescribes for
`slew(angle_degrees)` —
`microsteps = angle * 2^(step_mode & 7) * (follower_teeth/driver_teeth) / steps_per_degree` —
for comparison against the value the code computes. -/
def specMicrostepTarget (angle STPD N_D N_F : ℚ) (step_reg : ℕ) : ℤ :=
  pyInt (angle * ((2 : ℕ) ^ (step_reg &&& 7) : ℕ) * (N_F / N_D) / STPD)

/-! Theorems. -/

/-- Payload byte count: the ceiling-divide-by-8 of the bit width equals the
natural-number formula `(bits + 7) / 8`. -/
theorem byteLen_eq (b : ℕ) : byteLen b = (b + 7) / 8 := by
  have h1 : b ≤ ((b + 7) / 8) * 8 := by omega
  unfold byteLen
  apply le_antisymm
  · rw [Nat.ceil_le, div_le_iff₀ (by norm_num : (0 : ℚ) < 8)]
    exact_mod_cast h1
  · rcases Nat.eq_zero_or_pos ((b + 7) / 8) with h | h
    · simp [h]
    · have h3 : ((b + 7) / 8 - 1) * 8 < b := by omega
      have h4 : ((b + 7) / 8 - 1) < ⌈(b : ℚ) / 8⌉₊ := by
        rw [Nat.lt_ceil, lt_div_iff₀ (by norm_num : (0 : ℚ) < 8)]
        exact_mod_cast h3
      omega

/-- Function `send_recieve` puts exactly `send_len` bytes on the wire. -/
theorem sendBytes_length (x : ℤ) (n : ℕ) : (sendBytes x n).length = n := by
  simp [sendBytes]

/-- C2: `L6470.Run` rejects a direction outside `{0,1}` or a negative speed
with the `-1` invalid-argument return code before any transmission (no byte
reaches the transport), and returns the `0` success code on every valid
input. -/
theorem Run_validates_arguments (speed direction : ℤ) :
    ((direction ≠ 0 ∧ direction ≠ 1) ∨ speed < 0 →
      L6470.Run speed direction = (-1, []) ∧
      wireBytes (L6470.Run speed direction).2 = []) ∧
    ((direction = 0 ∨ direction = 1) → 0 ≤ speed →
      (L6470.Run speed direction).1 = 0) := by
  unfold L6470.Run
  constructor
  · intro h
    split_ifs with h1 h2
    · exact ⟨rfl, rfl⟩
    · exact ⟨rfl, rfl⟩
    · exfalso
      rcases h with hd | hs
      · exact h1 ⟨hd.2, hd.1⟩
      · exact h2 hs
  · intro hd hs
    split_ifs with h1 h2
    · rcases hd with rfl | rfl
      · exact absurd rfl h1.2
      · exact absurd rfl h1.1
    · omega
    · rfl

/-- C2 witness: `Run(speed=-1, direction=0)` fails with `-1` and zero bytes
sent; `Run(1000, 1)` succeeds with return code `0`. -/
theorem Run_validates_arguments_witness :
    (L6470.Run (-1) 0 = (-1, []) ∧ wireBytes (L6470.Run (-1) 0).2 = []) ∧
    (L6470.Run 1000 2).1 = -1 ∧ (L6470.Run 1000 1).1 = 0 :=
  ⟨(Run_validates_arguments (-1) 0).1 (Or.inr (by norm_num)),
   ((Run_validates_arguments 1000 2).1 (Or.inl (by norm_num))).1 ▸ rfl,
   (Run_validates_arguments 1000 1).2 (Or.inr rfl) (by norm_num)⟩

/-- C5: on a valid input `L6470.Run` puts the single opcode byte
`0x50 | direction` on the wire first and then the speed in exactly 3 payload
bytes, most-significant byte first (the three bytes reassemble MSB-first to
`speed mod 2^24`). -/
theorem Run_wire_format (speed direction : ℤ)
    (hd : direction = 0 ∨ direction = 1) (hs : 0 ≤ speed) :
    wireBytes (L6470.Run speed direction).2 =
      [((0x50 ||| direction.toNat : ℕ) : ℤ),
       (speed / 65536) % 256, (speed / 256) % 256, speed % 256] ∧
    ((speed / 65536) % 256) * 65536 + ((speed / 256) % 256) * 256 +
      speed % 256 = speed % 16777216 := by
  have h65536 : speed.fdiv 65536 = speed / 65536 :=
    Int.fdiv_eq_ediv speed (by norm_num)
  have h256 : speed.fdiv 256 = speed / 256 :=
    Int.fdiv_eq_ediv speed (by norm_num)
  have hrun : L6470.Run speed direction =
      (0, [⟨sendBytes (0b01010000 + direction) 1, 0⟩,
           ⟨sendBytes speed 3, 0⟩]) := by
    unfold L6470.Run
    rw [if_neg (by rcases hd with rfl | rfl <;> simp), if_neg (by omega)]
  constructor
  · rw [hrun]
    show sendBytes (0b01010000 + direction) 1 ++ (sendBytes speed 3 ++ []) = _
    have hop : sendBytes (0b01010000 + direction) 1 =
        [((0x50 ||| direction.toNat : ℕ) : ℤ)] := by
      rcases hd with rfl | rfl <;> norm_num [sendBytes] <;> decide
    rw [hop]
    simp only [sendBytes, List.range_succ, List.range_zero, List.map,
      List.append_assoc, List.nil_append, List.cons_append, List.append_nil]
    norm_num [h65536, h256]
    exact ⟨rfl, rfl, rfl⟩
  · omega

/-- C5 witness: the wire format at `speed = 1000`, `direction = 1`. -/
theorem Run_wire_format_witness :
    wireBytes (L6470.Run 1000 1).2 =
      [((0x50 ||| (1 : ℤ).toNat : ℕ) : ℤ),
       ((1000 : ℤ) / 65536) % 256, ((1000 : ℤ) / 256) % 256,
       (1000 : ℤ) % 256] ∧
    (((1000 : ℤ) / 65536) % 256) * 65536 +
      (((1000 : ℤ) / 256) % 256) * 256 + (1000 : ℤ) % 256 =
      (1000 : ℤ) % 16777216 :=
  Run_wire_format 1000 1 (Or.inr rfl) (by norm_num)

/-- C6: for every register of the table, `SetParam` transfers the opcode byte
and then exactly `⌈bit_width / 8⌉` payload bytes, and `GetParam` reads
exactly `⌈bit_width / 8⌉` bytes back; in particular STATUS (16 bits)
transfers 2 bytes and K_THERM (4 bits) transfers 1 byte. -/
theorem register_byte_length :
    (∀ e ∈ REGISTER_DICT, ∀ v : ℤ,
      (L6470.SetParam e.1 v).map (List.map (fun c => c.sent.length)) =
        some [1, ⌈(e.2.2 : ℚ) / 8⌉₊] ∧
      (L6470.GetParam e.1).map (List.map SpiCall.recvLen) =
        some [⌈(e.2.2 : ℚ) / 8⌉₊]) ∧
    byteLen 16 = 2 ∧ byteLen 4 = 1 := by
  refine ⟨?_, by rw [byteLen_eq], by rw [byteLen_eq]⟩
  intro e he v
  fin_cases he <;>
    simp [L6470.SetParam, L6470.GetParam, regLookup, REGISTER_DICT,
      sendBytes_length, byteLen]

/-- C6 witness: the STATUS register (16 bits) transfers 2 payload bytes. -/
theorem register_byte_length_witness :
    (L6470.SetParam ("STATUS", 0x19, 16).1 5).map
        (List.map (fun c => c.sent.length)) =
      some [1, ⌈((("STATUS", (0x19 : ℕ), (16 : ℕ))).2.2 : ℚ) / 8⌉₊] ∧
    (L6470.GetParam ("STATUS", 0x19, 16).1).map (List.map SpiCall.recvLen) =
      some [⌈((("STATUS", (0x19 : ℕ), (16 : ℕ))).2.2 : ℚ) / 8⌉₊] :=
  register_byte_length.1 ("STATUS", 0x19, 16) (by norm_num [REGISTER_DICT]) 5

/-- C7: a `run_task` step in Init whose status word reads 0 or 0xFFFF prints
the cannot-connect notification and changes nothing: the instance state
(including `_state = Init`) is untouched, the only driver call is the
`GetStatus` itself (no motion command), and the step returns early. -/
theorem init_unreachable_device (s : MotorState) (σ : ℕ → ℕ)
    (params : String → ℕ) (pyFloat : List Char → Option ℚ)
    (cmd_code : List Char) (hst : s._state = STATE_INIT)
    (hw : σ 0 = 0 ∨ σ 0 = 65535) :
    MotorTask.run_task s σ params pyFloat cmd_code =
      ⟨s, [DCmd.getStatus], [Report.deviceUnreachable], none⟩ := by
  unfold MotorTask.run_task
  rw [if_pos hst, if_pos hw]

/-- C7 witness: concrete step at status word 0. -/
theorem init_unreachable_device_witness :
    MotorTask.run_task ⟨0, 0, none, 9/5, 1, 1⟩ (fun _ => 0) (fun _ => 0)
        (fun _ => none) "init".data =
      ⟨⟨0, 0, none, 9/5, 1, 1⟩, [DCmd.getStatus],
       [Report.deviceUnreachable], none⟩ :=
  init_unreachable_device _ _ _ _ _ rfl (Or.inl rfl)

/-- C8: a `run_task` step in Busy polls `GetStatus` once; if bit 1 of the
word (the active-low BUSY flag: 1 = ready) is set the supervisor moves to
Idle and clears the advisory code to 0, otherwise it stays in Busy and
returns the advisory busy code 2 (not an error report). -/
theorem busy_polls_status (s : MotorState) (σ : ℕ → ℕ)
    (params : String → ℕ) (pyFloat : List Char → Option ℚ)
    (cmd_code : List Char) (hst : s._state = STATE_BUSY) :
    ((σ 0).testBit 1 = true →
      MotorTask.run_task s σ params pyFloat cmd_code =
        ⟨{s with _state := STATE_IDLE, _err := 0}, [DCmd.getStatus], [],
         some 0⟩) ∧
    ((σ 0).testBit 1 = false →
      MotorTask.run_task s σ params pyFloat cmd_code =
        ⟨{s with _err := 2}, [DCmd.getStatus], [], some 2⟩ ∧
      ({s with _err := 2} : MotorState)._state = STATE_BUSY ∧
      ({s with _err := 2} : MotorState)._err = 2) := by
  have hb : σ 0 &&& (1 <<< 1) = ((σ 0).testBit 1).toNat * 2 := by
    simpa using Nat.and_two_pow (σ 0) 1
  have h0 : ¬(s._state = STATE_INIT) := by
    rw [hst]; decide
  have h1 : ¬(s._state = STATE_IDLE) := by
    rw [hst]; decide
  have h3 : ¬(s._state = STATE_ERR) := by
    rw [hst]; decide
  constructor
  · intro hbit
    unfold MotorTask.run_task
    rw [if_neg h0, if_neg h1, if_neg h3, if_pos hst,
      if_pos (by rw [hb, hbit]; decide)]
  · intro hbit
    refine ⟨?_, by rw [hst], rfl⟩
    unfold MotorTask.run_task
    rw [if_neg h0, if_neg h1, if_neg h3, if_pos hst,
      if_neg (by rw [hb, hbit]; decide)]

/-- C8 witness: with status word 2 (bit 1 set) Busy goes to Idle; with
status word 0 it stays Busy with advisory code 2. -/
theorem busy_polls_status_witness :
    (MotorTask.run_task ⟨2, 2, none, 9/5, 1, 1⟩ (fun _ => 2) (fun _ => 0)
        (fun _ => none) "wait".data =
      ⟨{(⟨2, 2, none, 9/5, 1, 1⟩ : MotorState) with
          _state := STATE_IDLE, _err := 0}, [DCmd.getStatus], [], some 0⟩) ∧
    (MotorTask.run_task ⟨2, 2, none, 9/5, 1, 1⟩ (fun _ => 0) (fun _ => 0)
        (fun _ => none) "wait".data =
      ⟨{(⟨2, 2, none, 9/5, 1, 1⟩ : MotorState) with _err := 2},
       [DCmd.getStatus], [], some 2⟩) :=
  ⟨(busy_polls_status _ _ _ _ _ rfl).1 (by decide),
   ((busy_polls_status _ _ _ _ _ rfl).2 (by decide)).1⟩

/-- C3 counterexample: in the unreachable state 7 one `run_task` step issues
`SoftHiZ`, not `HardHiZ` — the claim that the fail-safe stop is `HardHiZ`
is false of the code (the step does transition to Idle). -/
theorem unknown_state_no_hardHiZ :
    (MotorTask.run_task ⟨7, 0, none, 9/5, 1, 1⟩ (fun _ => 0x7E00)
        (fun _ => 0) (fun _ => none) "wait".data).tr = [DCmd.softHiZ] ∧
    DCmd.hardHiZ ∉
      (MotorTask.run_task ⟨7, 0, none, 9/5, 1, 1⟩ (fun _ => 0x7E00)
        (fun _ => 0) (fun _ => none) "wait".data).tr ∧
    (MotorTask.run_task ⟨7, 0, none, 9/5, 1, 1⟩ (fun _ => 0x7E00)
        (fun _ => 0) (fun _ => none) "wait".data).st._state = STATE_IDLE := by
  refine ⟨?_, ?_, ?_⟩ <;> decide

/-- C3 (amended): from any lifecycle state outside {Init, Idle, Busy, Error}
one `run_task` step issues exactly one `SoftHiZ` (brake/coast stop), prints
the unknown-state notification and transitions the supervisor to Idle. -/
theorem unknown_state_softHiZ_idle (s : MotorState) (σ : ℕ → ℕ)
    (params : String → ℕ) (pyFloat : List Char → Option ℚ)
    (cmd_code : List Char) (h0 : s._state ≠ STATE_INIT)
    (h1 : s._state ≠ STATE_IDLE) (h2 : s._state ≠ STATE_BUSY)
    (h3 : s._state ≠ STATE_ERR) :
    MotorTask.run_task s σ params pyFloat cmd_code =
      ⟨{s with _state := STATE_IDLE}, [DCmd.softHiZ], [Report.unknownState],
       some s._err⟩ := by
  unfold MotorTask.run_task
  rw [if_neg h0, if_neg h1, if_neg h3, if_neg h2]

/-- C3 witness: the amended behaviour at the concrete unreachable state 9. -/
theorem unknown_state_softHiZ_idle_witness :
    MotorTask.run_task ⟨9, 5, none, 9/5, 1, 1⟩ (fun _ => 0) (fun _ => 0)
        (fun _ => none) "wait".data =
      ⟨{(⟨9, 5, none, 9/5, 1, 1⟩ : MotorState) with _state := STATE_IDLE},
       [DCmd.softHiZ], [Report.unknownState], some 5⟩ :=
  unknown_state_softHiZ_idle _ _ _ _ _ (by decide) (by decide) (by decide)
    (by decide)

/-- C4: `set_param` performs `GetStatus`, `SetParam`, `GetStatus`; when the
post-write error-mask test fails it repeats that three-call sequence exactly
once more, and when the retry fails as well it prints `ParamWriteFailed`
without a third attempt — the double-failure trace contains exactly two
`SetParam` transmissions. -/
theorem set_param_single_retry (σ : ℕ → ℕ) (name : String) (value : ℤ) :
    (errMaskFail (σ 1) = false →
      MotorTask.set_param σ name value =
        ([DCmd.getStatus, DCmd.setParam name value, DCmd.getStatus], [])) ∧
    (errMaskFail (σ 1) = true →
      (MotorTask.set_param σ name value).1 =
        [DCmd.getStatus, DCmd.setParam name value, DCmd.getStatus] ++
        [DCmd.getStatus, DCmd.setParam name value, DCmd.getStatus] ∧
      ((MotorTask.set_param σ name value).1.countP isSetParamCmd) = 2 ∧
      (errMaskFail (σ 3) = true →
        (MotorTask.set_param σ name value).2 =
          [Report.paramWriteFailed name (σ 3)]) ∧
      (errMaskFail (σ 3) = false →
        (MotorTask.set_param σ name value).2 = [])) := by
  constructor
  · intro h
    unfold MotorTask.set_param
    rw [if_neg (by simp [h])]
  · intro h
    unfold MotorTask.set_param
    rw [if_pos h]
    rcases hf : errMaskFail (σ 3) with _ | _ <;>
      simp [List.countP, List.countP.go, isSetParamCmd]

/-- C4 witness: with every status word 0 both error-mask tests fail; the
trace holds exactly two `SetParam`s and `ParamWriteFailed` is reported. -/
theorem set_param_single_retry_witness :
    (MotorTask.set_param (fun _ => 0) "MARK" 5).1 =
      [DCmd.getStatus, DCmd.setParam "MARK" 5, DCmd.getStatus] ++
      [DCmd.getStatus, DCmd.setParam "MARK" 5, DCmd.getStatus] ∧
    ((MotorTask.set_param (fun _ => 0) "MARK" 5).1.countP isSetParamCmd)
      = 2 ∧
    (MotorTask.set_param (fun _ => 0) "MARK" 5).2 =
      [Report.paramWriteFailed "MARK" 0] := by
  have h := (set_param_single_retry (fun _ => 0) "MARK" 5).2 (by decide)
  exact ⟨h.1, h.2.1, h.2.2.1 (by decide)⟩

/-- A string beginning with `c :: p` begins with `c`. -/
theorem pyStartsWith_cons {s : List Char} {c : Char} {p : List Char}
    (h : pyStartsWith s (c :: p) = true) : ∃ t, s = c :: t := by
  cases s with
  | nil => simp [pyStartsWith, List.isPrefixOf] at h
  | cons a t =>
    simp only [pyStartsWith, List.isPrefixOf, Bool.and_eq_true,
      beq_iff_eq] at h
    exact ⟨t, by rw [h.1]⟩

/-- A string does not begin with a pattern whose first character differs
from its own. -/
theorem pyStartsWith_cons_ne {a c : Char} {t p : List Char}
    (h : (c == a) = false) : pyStartsWith (a :: t) (c :: p) = false := by
  simp [pyStartsWith, List.isPrefixOf, h]

/-- C10: in Idle with a clean status word, a `mark` request without `set`
issues `GoMark` and a `home` request without `set` issues `GoHome`, and in
both cases the step writes the *distinct* attribute `state` while leaving
`_state` (still Idle) and `_err` unchanged — these requests never enter
Busy. -/
theorem mark_home_goto_keeps_state (s : MotorState) (σ : ℕ → ℕ)
    (params : String → ℕ) (pyFloat : List Char → Option ℚ)
    (cmd_code : List Char) (hst : s._state = STATE_IDLE)
    (hok : errMaskFail (σ 0) = false)
    (hnoset : pyHasSubstr "set".data cmd_code = false) :
    (pyStartsWith cmd_code "mark".data = true →
      MotorTask.run_task s σ params pyFloat cmd_code =
        ⟨{s with state := some STATE_BUSY}, [DCmd.getStatus, DCmd.goMark],
         [], some s._err⟩) ∧
    (pyStartsWith cmd_code "home".data = true →
      MotorTask.run_task s σ params pyFloat cmd_code =
        ⟨{s with state := some STATE_BUSY}, [DCmd.getStatus, DCmd.goHome],
         [], some s._err⟩) ∧
    ({s with state := some STATE_BUSY} : MotorState)._state = s._state ∧
    ({s with state := some STATE_BUSY} : MotorState)._err = s._err := by
  have h0 : ¬(s._state = STATE_INIT) := by rw [hst]; decide
  refine ⟨?_, ?_, rfl, rfl⟩
  · intro hm
    rw [show ("mark".data : List Char) = 'm' :: "ark".data from rfl] at hm
    obtain ⟨t, rfl⟩ := pyStartsWith_cons hm
    unfold MotorTask.run_task
    rw [if_neg h0, if_pos hst, if_neg (by simp [hok]),
      if_neg (by simp [pyStartsWith_cons_ne (show ('s' == 'm') = false from
        by decide)]),
      if_neg (by simp [pyStartsWith_cons_ne (show ('t' == 'm') = false from
        by decide)]),
      if_neg (by simp +decide [show ("track".data : List Char) =
        't' :: "rack".data from rfl]),
      if_pos hm, if_neg (by simp [hnoset])]
  · intro hm
    rw [show ("home".data : List Char) = 'h' :: "ome".data from rfl] at hm
    obtain ⟨t, rfl⟩ := pyStartsWith_cons hm
    unfold MotorTask.run_task
    rw [if_neg h0, if_pos hst, if_neg (by simp [hok]),
      if_neg (by simp [pyStartsWith_cons_ne (show ('s' == 'h') = false from
        by decide)]),
      if_neg (by simp [pyStartsWith_cons_ne (show ('t' == 'h') = false from
        by decide)]),
      if_neg (by simp +decide [show ("track".data : List Char) =
        't' :: "rack".data from rfl]),
      if_neg (by simp [pyStartsWith_cons_ne (show ('m' == 'h') = false from
        by decide)]),
      if_pos hm, if_neg (by simp [hnoset])]

/-- C10 witness: concrete `mark` and `home` go-to steps from Idle. -/
theorem mark_home_goto_keeps_state_witness :
    (MotorTask.run_task ⟨1, 0, none, 9/5, 1, 1⟩ (fun _ => 0x7E00)
        (fun _ => 0) (fun _ => none) "mark".data =
      ⟨{(⟨1, 0, none, 9/5, 1, 1⟩ : MotorState) with state := some STATE_BUSY},
       [DCmd.getStatus, DCmd.goMark], [], some 0⟩) ∧
    (MotorTask.run_task ⟨1, 0, none, 9/5, 1, 1⟩ (fun _ => 0x7E00)
        (fun _ => 0) (fun _ => none) "home".data =
      ⟨{(⟨1, 0, none, 9/5, 1, 1⟩ : MotorState) with state := some STATE_BUSY},
       [DCmd.getStatus, DCmd.goHome], [], some 0⟩) :=
  ⟨(mark_home_goto_keeps_state _ _ _ _ _ rfl (by decide) (by decide)).1
     (by decide),
   (mark_home_goto_keeps_state _ _ _ _ _ rfl (by decide) (by decide)).2.1
     (by decide)⟩

/-- C9: whatever the starting lifecycle state (including values outside the
named set) and whatever the command string, one `run_task` step leaves
`_state` in {Init, Idle, Busy, Error}; `shut_off` also re-establishes the
invariant (it always sets Idle). -/
theorem run_task_state_invariant (s : MotorState) (σ : ℕ → ℕ)
    (params : String → ℕ) (pyFloat : List Char → Option ℚ)
    (cmd_code : List Char) :
    ((MotorTask.run_task s σ params pyFloat cmd_code).st._state = STATE_INIT ∨
     (MotorTask.run_task s σ params pyFloat cmd_code).st._state = STATE_IDLE ∨
     (MotorTask.run_task s σ params pyFloat cmd_code).st._state = STATE_BUSY ∨
     (MotorTask.run_task s σ params pyFloat cmd_code).st._state = STATE_ERR) ∧
    (MotorTask.shut_off s).1._state = STATE_IDLE := by
  refine ⟨?_, rfl⟩
  have e0 : STATE_INIT = 0 := rfl
  have e1 : STATE_IDLE = 1 := rfl
  have e2 : STATE_BUSY = 2 := rfl
  have e3 : STATE_ERR = 3 := rfl
  by_cases h0 : s._state = STATE_INIT
  · unfold MotorTask.run_task
    rw [if_pos h0]
    dsimp only
    split_ifs <;> dsimp only <;> omega
  · by_cases h1 : s._state = STATE_IDLE
    · unfold MotorTask.run_task
      rw [if_neg h0, if_pos h1]
      dsimp only
      split_ifs <;> (try split) <;> dsimp only <;> omega
    · by_cases h3 : s._state = STATE_ERR
      · unfold MotorTask.run_task
        rw [if_neg h0, if_neg h1, if_pos h3]
        dsimp only
        split_ifs <;> dsimp only <;> omega
      · by_cases h2 : s._state = STATE_BUSY
        · unfold MotorTask.run_task
          rw [if_neg h0, if_neg h1, if_neg h3, if_pos h2]
          dsimp only
          split_ifs <;> dsimp only <;> omega
        · unfold MotorTask.run_task
          rw [if_neg h0, if_neg h1, if_neg h3, if_neg h2]
          dsimp only
          omega

/-- C1: evaluation of the slew branch at the claim's own example — Idle
state, clean status word `0x7E00`, request `slew90.0` parsing to the angle
90, `STEP_MODE` register 5 (so `2^(5 & 7) = 32` microstepping),
`step_degrees = 1.8`, teeth ratio 1/1.  The code computes
`int(angle * step_mode * (1.0*_N_F/_N_D) / (_STPD/10.0)) = 16000` — the
divisor is `_STPD/10.0`, not `_STPD` — issues `SoftStop` then
`GoTo(16000)` and enters Busy, whereas the claimed formula
`angle * 2^(step_mode & 7) * (follower/driver) / steps_per_degree`
(`specMicrostepTarget`) yields 1600. -/
theorem slew_ninety_goto_16000 :
    MotorTask.run_task ⟨1, 0, none, 9/5, 1, 1⟩ (fun _ => 0x7E00)
      (fun r => if r = "STEP_MODE" then 5 else 0) (fun _ => some 90)
      "slew90.0".data
    = ⟨⟨2, 0, none, 9/5, 1, 1⟩,
       [DCmd.getStatus, DCmd.getParam "STEP_MODE", DCmd.softStop,
        DCmd.goTo 16000], [], some 0⟩ ∧
    specMicrostepTarget 90 (9/5) 1 1 5 = 1600 ∧
    (16000 : ℤ) ≠ 1600 := by
  refine ⟨?_, ?_, by decide⟩
  · simp +decide only [MotorTask.run_task]
    norm_num [pyInt, STATE_BUSY, show (5 : ℕ) &&& 7 = 5 from by decide]
  · norm_num [specMicrostepTarget, pyInt,
      show (5 : ℕ) &&& 7 = 5 from by decide]
